import Mathlib

/-!
Verification of the filter-and-aggregate pipeline of a dashboard
application (`app.py`).  The dataset is a list of listing rows; the
filter engine `filter_df`, the group-by aggregation used by the
average-price bar chart, the five chart builders and the static data
preview table are embedded as pure Lean functions mirroring the source.
-/

/-- One rental-listing observation (one row of the loaded CSV).
Numeric columns are modelled as rationals; `satisfaction_bucket` may be
missing (`none`), as in the source data. -/
structure Row where
  realSum : Rat
  price_per_person : Rat
  dist : Rat
  attr_index : Rat
  person_capacity : Rat
  room_type : String
  time_period : String
  distance_bucket : String
  satisfaction_bucket : Option String
  host_is_superhost : Bool
deriving DecidableEq, Repr

/-- String rendering of a possibly-missing satisfaction bucket: pandas
`astype(str)` renders a missing value as the string "nan". -/
def satStr : Option String → String
  | none => "nan"
  | some s => s

/-- The filter engine (`filter_df` in the source): start from the full
dataset; when `room_types` is non-empty keep only member rows, likewise
for `time_periods`; when `sat` is not the sentinel "All" keep only rows
whose stringified `satisfaction_bucket` equals `sat`. -/
def filter_df (rows : List Row) (room_types time_periods : List String)
    (sat : String) : List Row :=
  let d := rows
  let d := if room_types.isEmpty then d
           else d.filter (fun r => room_types.contains r.room_type)
  let d := if time_periods.isEmpty then d
           else d.filter (fun r => time_periods.contains r.time_period)
  let d := if sat == "All" then d
           else d.filter (fun r => satStr r.satisfaction_bucket == sat)
  d

/-- The row predicate realised by the three sequential filter steps of
`filter_df`: each dimension passes when its filter is inactive or the
row's value is selected. -/
def keeps (room_types time_periods : List String) (sat : String)
    (r : Row) : Bool :=
  (room_types.isEmpty || room_types.contains r.room_type) &&
  (time_periods.isEmpty || time_periods.contains r.time_period) &&
  (sat == "All" || satStr r.satisfaction_bucket == sat)

theorem filter_df_eq_filter (rows : List Row)
    (room_types time_periods : List String) (sat : String) :
    filter_df rows room_types time_periods sat
      = rows.filter (keeps room_types time_periods sat) := by
  unfold filter_df keeps
  rcases h1 : room_types.isEmpty <;>
    rcases h2 : time_periods.isEmpty <;>
    rcases h3 : sat == "All" <;>
    simp [h1, h2, h3, List.filter_filter] <;>
    exact List.filter_congr (fun r _ => by
      cases hr : decide (r.room_type ∈ room_types) <;>
        cases ht : decide (r.time_period ∈ time_periods) <;>
        cases hs : satStr r.satisfaction_bucket == sat <;>
        simp [hr, ht, hs])

/-- The composite group-by key used by the average-price bar chart:
(`distance_bucket`, `room_type`, `time_period`). -/
def groupKey (r : Row) : String × String × String :=
  (r.distance_bucket, r.room_type, r.time_period)

/-- One output row of the aggregation step. -/
structure AggRow where
  distance_bucket : String
  room_type : String
  time_period : String
  avg_price : Rat
deriving DecidableEq, Repr

/-- Arithmetic mean of a list of rationals. -/
def mean (xs : List Rat) : Rat := xs.sum / (xs.length : Rat)

/-- The rows of `d` belonging to group `k`. -/
def groupRows (d : List Row) (k : String × String × String) : List Row :=
  d.filter (fun r => decide (groupKey r = k))

/-- The group-by/mean aggregation performed in the `update_avg` callback:
`d.groupby(["distance_bucket", "room_type", "time_period"])["realSum"].mean()`,
one output row per distinct key combination present in `d`, holding the mean
of `realSum` over that group's rows as `avg_price`. -/
def aggregate (d : List Row) : List AggRow :=
  ((d.map groupKey).dedup).map (fun k =>
    { distance_bucket := k.1, room_type := k.2.1, time_period := k.2.2,
      avg_price := mean ((groupRows d k).map Row.realSum) })

/-- A filter selection as delivered by the three dashboard controls. -/
structure Selection where
  room_types : List String
  time_periods : List String
  sat : String
deriving DecidableEq, Repr

/-- The process-wide state: the dataset loaded once at startup. -/
structure AppState where
  df : List Row
deriving DecidableEq, Repr

/-- One invocation of the filter engine by a callback: it reads the loaded
dataset and returns the (unchanged) state together with the filtered
subset. -/
def runFilterCall (s : AppState) (sel : Selection) : AppState × List Row :=
  (s, filter_df s.df sel.room_types sel.time_periods sel.sat)

/-- The state after a sequence of filter calls. -/
def runCalls (s : AppState) (sels : List Selection) : AppState :=
  sels.foldl (fun st sel => (runFilterCall st sel).1) s

theorem runCalls_eq (s : AppState) (sels : List Selection) :
    runCalls s sels = s := by
  induction sels generalizing s with
  | nil => rfl
  | cons a t ih => exact ih s

/-- A watermark image layered onto a chart (`add_layout_image`). -/
structure Overlay where
  source : String
  x : Rat
  y : Rat
  sizex : Rat
  sizey : Rat
  xanchor : String
  yanchor : String
  opacity : Rat
deriving DecidableEq, Repr

/-- The low-opacity Airbnb-logo corner watermark of the first scatter. -/
def airbnb_watermark : Overlay :=
  { source := "/assets/airbnb_logo.png", x := 115/100, y := 0,
    sizex := 32/100, sizey := 32/100, xanchor := "right",
    yanchor := "bottom", opacity := 15/100 }

/-- The low-opacity centered flag watermark of the histogram. -/
def london_flag_watermark : Overlay :=
  { source := "/assets/london_flag.png", x := 1/2, y := 1/2,
    sizex := 1, sizey := 1, xanchor := "center", yanchor := "middle",
    opacity := 9/100 }

/-- A chart description object: the chart kind, the declared encoding
parameters, the data rows handed to the renderer and any watermark
overlays. `ρ` is the row type (`Row`, or `AggRow` for the bar chart). -/
structure Figure (ρ : Type) where
  kind : String
  x : String
  y : Option String
  color : Option String
  size : Option String
  animation_frame : Option String
  facet_col : Option String
  hover_data : List String
  nbins : Option Nat
  barmode : Option String
  opacity : Option Rat
  title : String
  data : List ρ
  layout_images : List Overlay
deriving Repr

/-- Callback `update_price_dist`: scatter of price vs distance with the
Airbnb watermark. -/
def update_price_dist (rows : List Row) (room timep : List String)
    (sat : String) : Figure Row :=
  let d := filter_df rows room timep sat
  { kind := "scatter", x := "dist", y := some "realSum",
    color := some "room_type", size := some "person_capacity",
    animation_frame := some "satisfaction_bucket",
    facet_col := some "time_period",
    hover_data := ["price_per_person", "host_is_superhost"],
    nbins := none, barmode := none, opacity := none,
    title := "Price vs Distance to City Center", data := d,
    layout_images := [airbnb_watermark] }

/-- Callback `update_avg`: grouped bar chart over the aggregation step's
output. -/
def update_avg (rows : List Row) (room timep : List String)
    (sat : String) : Figure AggRow :=
  let d := filter_df rows room timep sat
  let grp := aggregate d
  { kind := "bar", x := "distance_bucket", y := some "avg_price",
    color := some "time_period", size := none,
    animation_frame := some "room_type", facet_col := none,
    hover_data := [], nbins := none, barmode := some "group",
    opacity := none, title := "Average Price by Distance Bucket",
    data := grp, layout_images := [] }

/-- Callback `update_attr`: scatter of attractions index vs price per
person. -/
def update_attr (rows : List Row) (room timep : List String)
    (sat : String) : Figure Row :=
  let d := filter_df rows room timep sat
  { kind := "scatter", x := "attr_index", y := some "price_per_person",
    color := some "satisfaction_bucket", size := none,
    animation_frame := none, facet_col := some "time_period",
    hover_data := ["room_type", "distance_bucket"],
    nbins := none, barmode := none, opacity := none,
    title := "Attractions Index vs Price per Person", data := d,
    layout_images := [] }

/-- Callback `update_box`: box plot of price per person by distance
bucket. -/
def update_box (rows : List Row) (room timep : List String)
    (sat : String) : Figure Row :=
  let d := filter_df rows room timep sat
  { kind := "box", x := "distance_bucket", y := some "price_per_person",
    color := some "time_period", size := none,
    animation_frame := none, facet_col := none, hover_data := [],
    nbins := none, barmode := none, opacity := none,
    title := "Price per Person by Distance Bucket", data := d,
    layout_images := [] }

/-- Callback `update_hist`: 40-bin price histogram with the flag
watermark. -/
def update_hist (rows : List Row) (room timep : List String)
    (sat : String) : Figure Row :=
  let d := filter_df rows room timep sat
  { kind := "histogram", x := "realSum", y := none,
    color := some "satisfaction_bucket", size := none,
    animation_frame := none, facet_col := none, hover_data := [],
    nbins := some 40, barmode := none, opacity := some (75/100),
    title := "Price Distribution", data := d,
    layout_images := [london_flag_watermark] }

/-- The rows shown by the data-preview table (`cleaned-table`): the first
25 rows of the unfiltered dataset, fixed at layout construction (no
callback writes to the table). -/
def cleanedTableData (rows : List Row) : List Row := rows.take 25

/-- The preview table's page size. -/
def cleanedTablePageSize : Nat := 10

/-- A small concrete dataset echoing the spec's three-row scenario, with a
row whose `satisfaction_bucket` is missing. -/
def row1 : Row :=
  { realSum := 100, price_per_person := 50, dist := 2, attr_index := 80,
    person_capacity := 2, room_type := "Entire home",
    time_period := "Weekday", distance_bucket := "Near",
    satisfaction_bucket := some "High", host_is_superhost := true }

def row2 : Row :=
  { realSum := 50, price_per_person := 50, dist := 5, attr_index := 40,
    person_capacity := 1, room_type := "Private room",
    time_period := "Weekday", distance_bucket := "Near",
    satisfaction_bucket := none, host_is_superhost := false }

def row3 : Row :=
  { realSum := 200, price_per_person := 66, dist := 1, attr_index := 95,
    person_capacity := 3, room_type := "Entire home",
    time_period := "Weekend", distance_bucket := "Near",
    satisfaction_bucket := some "Medium", host_is_superhost := true }

def demoRows : List Row := [row1, row2, row3]

theorem demo_scenario :
    filter_df demoRows ["Entire home"] [] "All" = [row1, row3] := by decide

/-- C1: for every dataset and selection, filtering with an empty
`room_types` collection (likewise an empty `time_periods` collection)
returns exactly the result of applying no filter on that dimension: every
row passes on that axis and only the remaining conditions restrict the
output. -/
theorem empty_selection_is_unfiltered (rows : List Row)
    (room_types time_periods : List String) (sat : String) :
    filter_df rows [] time_periods sat
      = rows.filter (fun r =>
          (time_periods.isEmpty || time_periods.contains r.time_period) &&
          (sat == "All" || satStr r.satisfaction_bucket == sat))
  ∧ filter_df rows room_types [] sat
      = rows.filter (fun r =>
          (room_types.isEmpty || room_types.contains r.room_type) &&
          (sat == "All" || satStr r.satisfaction_bucket == sat)) := by
  constructor
  · rw [filter_df_eq_filter]
    exact List.filter_congr (fun r _ => by simp [keeps])
  · rw [filter_df_eq_filter]
    exact List.filter_congr (fun r _ => by simp [keeps])

/-- C2: for every dataset and selection, the filter's output consists of
exactly those rows satisfying all three conditions: membership in
`room_types` when it is non-empty, membership in `time_periods` when it is
non-empty, and equality of the stringified `satisfaction_bucket` with
`sat` when `sat` is not the sentinel "All". -/
theorem filter_df_keeps_exactly_matching_rows (rows : List Row)
    (room_types time_periods : List String) (sat : String) :
    filter_df rows room_types time_periods sat
      = rows.filter (fun r =>
          (room_types.isEmpty || room_types.contains r.room_type) &&
          (time_periods.isEmpty || time_periods.contains r.time_period) &&
          (sat == "All" || satStr r.satisfaction_bucket == sat)) :=
  filter_df_eq_filter rows room_types time_periods sat

/-- C4: with `sat = "All"`, the filter's output is identical to applying
only the room-type and time-period filters, with no restriction on
`satisfaction_bucket`. -/
theorem satisfaction_all_is_identity (rows : List Row)
    (room_types time_periods : List String) :
    filter_df rows room_types time_periods "All"
      = rows.filter (fun r =>
          (room_types.isEmpty || room_types.contains r.room_type) &&
          (time_periods.isEmpty || time_periods.contains r.time_period)) := by
  rw [filter_df_eq_filter]
  exact List.filter_congr (fun r _ => by simp [keeps])

/-- C5: for every dataset and selection, the filter's output is a sublist
of the input: a subset of its rows, none fabricated, none duplicated, in
the original relative order. -/
theorem filter_df_sublist (rows : List Row)
    (room_types time_periods : List String) (sat : String) :
    List.Sublist (filter_df rows room_types time_periods sat) rows := by
  rw [filter_df_eq_filter]
  exact List.filter_sublist rows

/-- C3: the aggregation produces exactly one output row per distinct
(`distance_bucket`, `room_type`, `time_period`) key combination present in
the subset, each holding the arithmetic mean of `realSum` over that
group's rows; absent combinations yield no output row, so the output
length equals the number of distinct keys present. -/
theorem aggregate_one_row_per_observed_key (d : List Row) :
    ((aggregate d).map (fun a => (a.distance_bucket, a.room_type, a.time_period))
        = (d.map groupKey).dedup)
  ∧ ((aggregate d).map (fun a => (a.distance_bucket, a.room_type, a.time_period))).Nodup
  ∧ (∀ a ∈ aggregate d,
        (a.distance_bucket, a.room_type, a.time_period) ∈ d.map groupKey
      ∧ a.avg_price
          = mean ((groupRows d
              (a.distance_bucket, a.room_type, a.time_period)).map Row.realSum))
  ∧ (aggregate d).length = ((d.map groupKey).dedup).length := by
  have hmap : (aggregate d).map
      (fun a => (a.distance_bucket, a.room_type, a.time_period))
        = (d.map groupKey).dedup := by
    unfold aggregate
    rw [List.map_map]
    exact List.map_id _
  refine ⟨hmap, ?_, ?_, ?_⟩
  · rw [hmap]
    exact (d.map groupKey).nodup_dedup
  · intro a ha
    unfold aggregate at ha
    rw [List.mem_map] at ha
    obtain ⟨k, hk, rfl⟩ := ha
    exact ⟨List.mem_dedup.mp hk, rfl⟩
  · unfold aggregate
    rw [List.length_map]

/-- C6: no sequence of filter invocations mutates the loaded dataset —
after any number of filter calls with any selections the process state
holds exactly the rows it held after load. -/
theorem dataset_immutable_under_filter_calls (s : AppState)
    (sels : List Selection) :
    (runCalls s sels).df = s.df := by
  rw [runCalls_eq]

/-- C7: a selection whose values occur in no row of the dataset (an
unknown room type, an unknown time period, or an unknown satisfaction
bucket) yields zero matching rows; the filter is a total function, so no
error is possible. -/
theorem unknown_filter_values_yield_empty (rows : List Row)
    (room_types time_periods : List String) (sat : String)
    (h : (room_types ≠ []
            ∧ rows.all (fun r => !(room_types.contains r.room_type)) = true)
       ∨ (time_periods ≠ []
            ∧ rows.all (fun r => !(time_periods.contains r.time_period)) = true)
       ∨ (sat ≠ "All"
            ∧ rows.all (fun r => !(satStr r.satisfaction_bucket == sat)) = true)) :
    filter_df rows room_types time_periods sat = [] := by
  rw [filter_df_eq_filter, List.filter_eq_nil_iff]
  intro r hr
  rcases h with ⟨hne, hall⟩ | ⟨hne, hall⟩ | ⟨hne, hall⟩
  · have hc : room_types.contains r.room_type = false := by
      simpa using List.all_eq_true.mp hall r hr
    have hempty : room_types.isEmpty = false := by
      cases room_types with
      | nil => exact absurd rfl hne
      | cons a t => rfl
    simp [keeps, hempty]
    intro hmem
    exact absurd hmem (by simpa using hc)
  · have hc : time_periods.contains r.time_period = false := by
      simpa using List.all_eq_true.mp hall r hr
    have hempty : time_periods.isEmpty = false := by
      cases time_periods with
      | nil => exact absurd rfl hne
      | cons a t => rfl
    simp [keeps, hempty]
    intro _ hmem
    exact absurd hmem (by simpa using hc)
  · have hc : (satStr r.satisfaction_bucket == sat) = false := by
      simpa using List.all_eq_true.mp hall r hr
    simp [keeps, hne, hc]

theorem unknown_filter_values_yield_empty_check :
    filter_df demoRows ["Shared room"] [] "All" = [] :=
  unknown_filter_values_yield_empty demoRows ["Shared room"] [] "All"
    (Or.inl ⟨by decide, by decide⟩)

/-- C8: every one of the five chart builders is total and degrades
gracefully: each returns a chart description whose data is exactly the
filtered subset (the aggregated subset for the bar chart), so a selection
matching zero rows yields a valid empty chart, never a failure. -/
theorem chart_builders_total (rows : List Row) (room timep : List String)
    (sat : String) :
    (update_price_dist rows room timep sat).data = filter_df rows room timep sat
  ∧ (update_avg rows room timep sat).data = aggregate (filter_df rows room timep sat)
  ∧ (update_attr rows room timep sat).data = filter_df rows room timep sat
  ∧ (update_box rows room timep sat).data = filter_df rows room timep sat
  ∧ (update_hist rows room timep sat).data = filter_df rows room timep sat
  ∧ aggregate ([] : List Row) = [] :=
  ⟨rfl, rfl, rfl, rfl, rfl, rfl⟩

/-- C9: the data-preview table holds exactly the first 25 rows of the
unfiltered dataset, paged with page size 10, and is identical regardless
of any sequence of filter calls. -/
theorem preview_table_unaffected_by_filters (s : AppState)
    (sels : List Selection) :
    cleanedTableData (runCalls s sels).df = s.df.take 25
  ∧ cleanedTablePageSize = 10 := by
  refine ⟨?_, rfl⟩
  rw [runCalls_eq]
  rfl

/-- C10: when the selected satisfaction is a concrete bucket label (not
the sentinel "All" and not "nan", the string rendering of a missing
value), every row with a missing `satisfaction_bucket` is excluded from
the filter's output, since the comparison is performed on the string
rendering of the missing value. -/
theorem concrete_satisfaction_excludes_missing (rows : List Row)
    (room_types time_periods : List String) (sat : String)
    (hAll : sat ≠ "All") (hnan : sat ≠ "nan") :
    (filter_df rows room_types time_periods sat).all
      (fun r => r.satisfaction_bucket.isSome) = true := by
  rw [filter_df_eq_filter, List.all_eq_true]
  intro r hr
  have hk := (List.mem_filter.mp hr).2
  cases hb : r.satisfaction_bucket with
  | some s => rfl
  | none =>
    exfalso
    have hk3 : ((sat == "All") || (satStr r.satisfaction_bucket == sat)) = true := by
      unfold keeps at hk
      simp only [Bool.and_eq_true] at hk
      exact hk.2
    rw [hb] at hk3
    simp only [Bool.or_eq_true] at hk3
    rcases hk3 with h1 | h2
    · exact hAll (by simpa using h1)
    · have hn : "nan" = sat := by simpa [satStr] using h2
      exact hnan hn.symm

theorem concrete_satisfaction_excludes_missing_check :
    (filter_df demoRows [] [] "High").all
      (fun r => r.satisfaction_bucket.isSome) = true :=
  concrete_satisfaction_excludes_missing demoRows [] [] "High"
    (by decide) (by decide)

theorem demo_aggregate :
    aggregate demoRows =
      [ { distance_bucket := "Near", room_type := "Entire home",
          time_period := "Weekday", avg_price := 100 },
        { distance_bucket := "Near", room_type := "Private room",
          time_period := "Weekday", avg_price := 50 },
        { distance_bucket := "Near", room_type := "Entire home",
          time_period := "Weekend", avg_price := 200 } ] := by
  simp [aggregate, demoRows, groupKey, groupRows, mean, row1, row2, row3]
